import Mathlib

/-!
Verification of the eden CLI configuration core (`eden/fs/cli/config.py`).

The development shallowly embeds the source file: the on-disk client
registry is a finite map from paths to filesystem nodes, every registry
operation is an executable Lean function translated statement-by-statement
from the Python source, RPC replies and daemon observations enter as
explicit parameters, and the claims of the specification are settled as
theorems about those functions.
-/

deriving instance DecidableEq for Except

namespace Eden

/-- A filesystem path, as its list of components below the root
(`/a/b` is `["a", "b"]`; the root itself is `[]`). -/
abbrev Path := List String

/-- The dictionary written to `config.json` by `create_client` and read
back by `get_client_info` (`json.dump`/`json.load` round-trip a finite
string dictionary exactly, so the file content is kept structured). -/
structure ConfigData where
  bindMounts : List (String × String)
  mount : Path
  repoType : String
  repoSource : String
deriving DecidableEq

/-- A node of the modelled filesystem: a directory, a plain text file, or
the JSON config document. -/
inductive FNode
  | dir
  | file (content : String)
  | jfile (data : ConfigData)
deriving DecidableEq

/-- The filesystem: an association list from paths to nodes; the first
match wins, and the root `[]` is always a directory. -/
abbrev FS := List (Path × FNode)

/-- Error codes surfaced by the modelled OS calls. -/
inductive Errno
  | EEXIST
  | ENOTDIR
  | ENOENT
  | EISDIR
  | EACCES
  | EIOERR
deriving DecidableEq

def FS.lookupA : FS → Path → Option FNode
  | [], _ => none
  | e :: es, p => if e.1 = p then some e.2 else FS.lookupA es p

/-- Look a path up; the root always exists as a directory. -/
def FS.lookup (fs : FS) (p : Path) : Option FNode :=
  if p = [] then some FNode.dir else FS.lookupA fs p

/-- Bind a path to a node (models creating or truncating the entry). -/
def FS.set (fs : FS) (p : Path) (n : FNode) : FS := (p, n) :: fs

/-- `os.path.exists`. -/
def FS.pathExists (fs : FS) (p : Path) : Bool := (FS.lookup fs p).isSome

/-- `os.path.isdir`. -/
def FS.isdir (fs : FS) (p : Path) : Bool := decide (FS.lookup fs p = some FNode.dir)

/-- Well-formed filesystem: every recorded path is non-root and sits
inside an existing directory (true of every real on-disk tree). -/
def FS.WF (fs : FS) : Bool :=
  fs.all (fun e => decide (e.1 ≠ []) && (decide (e.1.dropLast = []) || FS.isdir fs e.1.dropLast))

/-- `os.mkdir`: fails with `EEXIST` if the path exists, creates the
directory if the parent is a directory, otherwise fails with `ENOTDIR`
(parent exists as a non-directory) or `ENOENT` (parent missing). -/
def mkdir (fs : FS) (p : Path) : Except Errno Unit × FS :=
  if FS.pathExists fs p then (.error .EEXIST, fs)
  else if FS.isdir fs p.dropLast then (.ok (), FS.set fs p FNode.dir)
  else if FS.pathExists fs p.dropLast then (.error .ENOTDIR, fs)
  else (.error .ENOENT, fs)

/-- Fueled body of `os.makedirs`: if the parent is non-root and does not
exist, recursively create it first (swallowing `EEXIST` from the
recursive call, as CPython's `makedirs` does), then `mkdir` the path
itself. -/
def makedirsF : Nat → FS → Path → Except Errno Unit × FS
  | 0, fs, p => mkdir fs p
  | fuel + 1, fs, p =>
    if p.dropLast ≠ [] ∧ FS.pathExists fs p.dropLast = false then
      match makedirsF fuel fs p.dropLast with
      | (.error e, fs1) => if e = .EEXIST then mkdir fs1 p else (.error e, fs1)
      | (.ok _, fs1) => mkdir fs1 p
    else mkdir fs p

/-- `os.makedirs` (the recursion depth is bounded by the path length). -/
def makedirs (fs : FS) (p : Path) : Except Errno Unit × FS := makedirsF p.length fs p

/-- `open(path, 'w')` followed by writing the given node: overwrites an
existing file, fails with `EISDIR` on a directory, and otherwise needs an
existing parent directory. -/
def openWrite (fs : FS) (p : Path) (n : FNode) : Except Errno Unit × FS :=
  match FS.lookup fs p with
  | some FNode.dir => (.error .EISDIR, fs)
  | some _ => (.ok (), FS.set fs p n)
  | none =>
    if FS.isdir fs p.dropLast then (.ok (), FS.set fs p n)
    else if FS.pathExists fs p.dropLast then (.error .ENOTDIR, fs)
    else (.error .ENOENT, fs)

/-- `open(path, 'a')` followed by writing a string: appends to an
existing text file, creates the file if absent. -/
def openAppendWrite (fs : FS) (p : Path) (s : String) : Except Errno Unit × FS :=
  match FS.lookup fs p with
  | some (FNode.file c) => (.ok (), FS.set fs p (FNode.file (c ++ s)))
  | some FNode.dir => (.error .EISDIR, fs)
  | some (FNode.jfile _) => (.error .EIOERR, fs)
  | none =>
    if FS.isdir fs p.dropLast then (.ok (), FS.set fs p (FNode.file s))
    else if FS.pathExists fs p.dropLast then (.error .ENOTDIR, fs)
    else (.error .ENOENT, fs)

/-- `open(path).read()` of a text file. -/
def readFile (fs : FS) (p : Path) : Except Errno String :=
  match FS.lookup fs p with
  | none => .error .ENOENT
  | some FNode.dir => .error .EISDIR
  | some (FNode.file c) => .ok c
  | some (FNode.jfile _) => .error .EIOERR

/-- `json.load(open(path))` of the config document. -/
def readJson (fs : FS) (p : Path) : Except Errno ConfigData :=
  match FS.lookup fs p with
  | none => .error .ENOENT
  | some FNode.dir => .error .EISDIR
  | some (FNode.file _) => .error .EIOERR
  | some (FNode.jfile d) => .ok d

/-- The characters Python's `str.strip()` removes. -/
def isPySpace (c : Char) : Bool :=
  c = ' ' || c = '\t' || c = '\n' || c = '\r' || c = '\x0b' || c = '\x0c'

/-- Drop trailing whitespace characters. -/
def dropTrail (l : List Char) : List Char := (l.reverse.dropWhile isPySpace).reverse

/-- Drop leading and trailing whitespace characters. -/
def stripChars (l : List Char) : List Char := dropTrail (l.dropWhile isPySpace)

/-- Python's `str.strip()`. -/
def pyStrip (s : String) : String := String.mk (stripChars s.data)

/-! ## Constants of `config.py` -/

def CLIENTS_DIR : String := "clients"
def STORAGE_DIR : String := "storage"
def ROCKS_DB_DIR : List String := [STORAGE_DIR, "rocks-db"]
def CONFIG_JSON : String := "config.json"
def SNAPSHOT : String := "SNAPSHOT"

/-! ## Error taxonomy

The Python code raises plain `Exception`s with distinguishing messages,
`EdenStartError`, uncaught `OSError`s, and (in `unmount`) lets the raw
`EdenService.EdenError` escape.  Each raise site gets its own
constructor so that the distinctions are visible in the theorems. -/

inductive EdenErr
  /-- `Exception('Error: no such client "%s"' % name)`. -/
  | noSuchClient (name : String)
  /-- `Exception('Error: client %s already exists.' % name)`. -/
  | clientExists (name : String)
  /-- The `'%s must be a directory in order to mount a client at %s. ...'`
  raise of `_verify_mount_point`. -/
  | invalidMountPoint (parentDir mountPoint : Path)
  /-- An uncaught `OSError`/`IOError` from a filesystem call. -/
  | osError (e : Errno)
  /-- `EdenStartError(msg)`. -/
  | edenStartError (msg : String)
  /-- `Exception(ex.message)`: an `EdenService.EdenError` reboxed by
  `mount`/`checkout`. -/
  | serviceError (msg : String)
  /-- A raw `EdenService.EdenError` escaping uncaught. -/
  | rawEdenError (msg : String)
  /-- A raw `thrift.Thrift.TException` (transport failure) escaping. -/
  | rpcTransportError (msg : String)
  /-- `eden.thrift.EdenNotRunningError` from `create_thrift_client`. -/
  | edenNotRunning
deriving DecidableEq

/-! ## RPC interface -/

/-- One thrift call issued by the orchestrator, with its arguments. -/
inductive RpcCall
  | mount (mountPoint : Path) (edenClientPath : Path)
  | unmount (mountPoint : Path)
  | checkOutRevision (mountPoint : Path) (snapshotId : String)
deriving DecidableEq

/-- The daemon's reply to one thrift call: success, an application-level
`EdenService.EdenError` carrying a message, or a transport exception. -/
inductive RpcReply
  | ok
  | edenError (message : String)
  | transportError (msg : String)
deriving DecidableEq

/-- The external RPC world: whether `create_thrift_client` succeeds, and
the daemon's reply to each call. -/
structure RpcEnv where
  connectOk : Bool
  reply : RpcCall → RpcReply

/-! ## The `Config` class: registry operations -/

structure Config where
  configDir : Path

def Config.clientsDir (cfg : Config) : Path := cfg.configDir ++ [CLIENTS_DIR]

/-- The ordered dict returned by `get_client_info`. -/
structure ClientInfo where
  bindMounts : List (String × String)
  mount : Path
  snapshot : String
  clientDir : Path
deriving DecidableEq

/-- `Config.get_client_info` (config.py:65-83). -/
def Config.get_client_info (cfg : Config) (fs : FS) (name : String) :
    Except EdenErr ClientInfo :=
  let client_dir := cfg.clientsDir ++ [name]
  if FS.isdir fs client_dir = false then .error (.noSuchClient name)
  else
    match readJson fs (client_dir ++ [CONFIG_JSON]) with
    | .error e => .error (.osError e)
    | .ok config_data =>
      match readFile fs (client_dir ++ [SNAPSHOT]) with
      | .error e => .error (.osError e)
      | .ok raw =>
        .ok { bindMounts := config_data.bindMounts
              mount := config_data.mount
              snapshot := pyStrip raw
              clientDir := client_dir }

/-- `_verify_mount_point` (config.py:345-355). -/
def verify_mount_point (fs : FS) (mount_point : Path) : Except EdenErr Unit × FS :=
  if FS.isdir fs mount_point then (.ok (), fs)
  else
    let parent_dir := mount_point.dropLast
    if FS.isdir fs parent_dir then
      match mkdir fs mount_point with
      | (.error e, fs1) => (.error (.osError e), fs1)
      | (.ok _, fs1) => (.ok (), fs1)
    else (.error (.invalidMountPoint parent_dir mount_point), fs)

/-- `Config.create_client` (config.py:85-127). -/
def Config.create_client (cfg : Config) (fs : FS) (name : String)
    (mount_point : Path) (snapshot_id : String)
    (repo_type repo_source : String) (with_buck : Bool) :
    Except EdenErr Unit × FS :=
  match verify_mount_point fs mount_point with
  | (.error e, fs1) => (.error e, fs1)
  | (.ok _, fs1) =>
    let client_dir := cfg.clientsDir ++ [name]
    if FS.isdir fs1 client_dir then (.error (.clientExists name), fs1)
    else
      match makedirs fs1 client_dir with
      | (.error e, fs2) => (.error (.osError e), fs2)
      | (.ok _, fs2) =>
        let bind_mounts_dir := client_dir ++ ["bind-mounts"]
        match makedirs fs2 bind_mounts_dir with
        | (.error e, fs3) => (.error (.osError e), fs3)
        | (.ok _, fs3) =>
          let bind_mounts :=
            if with_buck then [("buck-out", "buck-out")] else []
          match
            (if with_buck then makedirs fs3 (bind_mounts_dir ++ ["buck-out"])
             else (.ok (), fs3)) with
          | (.error e, fs4) => (.error (.osError e), fs4)
          | (.ok _, fs4) =>
            let config_data : ConfigData :=
              { bindMounts := bind_mounts
                mount := mount_point
                repoType := repo_type
                repoSource := repo_source }
            match openWrite fs4 (client_dir ++ [CONFIG_JSON]) (FNode.jfile config_data) with
            | (.error e, fs5) => (.error (.osError e), fs5)
            | (.ok _, fs5) =>
              if snapshot_id ≠ "" then
                match openWrite fs5 (client_dir ++ [SNAPSHOT])
                    (FNode.file (snapshot_id ++ "\n")) with
                | (.error e, fs6) => (.error (.osError e), fs6)
                | (.ok _, fs6) => (.ok (), fs6)
              else (.ok (), fs5)

/-- `_get_or_create_dir` (config.py:358-365): `os.makedirs`, swallowing
only `EEXIST`, and returning the path. -/
def get_or_create_dir (fs : FS) (p : Path) : Except EdenErr Path × FS :=
  match makedirs fs p with
  | (.error e, fs1) =>
    if e = .EEXIST then (.ok p, fs1) else (.error (.osError e), fs1)
  | (.ok _, fs1) => (.ok p, fs1)

/-- `Config._get_or_create_write_dir` (config.py:327-332). -/
def Config.get_or_create_write_dir (cfg : Config) (fs : FS) (client_name : String) :
    Except EdenErr Path × FS :=
  get_or_create_dir fs (cfg.clientsDir ++ [client_name, "local"])

/-- `Config.get_or_create_path_to_rocks_db` (config.py:320-322). -/
def Config.get_or_create_path_to_rocks_db (cfg : Config) (fs : FS) :
    Except EdenErr Path × FS :=
  get_or_create_dir fs (cfg.configDir ++ ROCKS_DB_DIR)

/-! ## Mount orchestrator

Each operation returns its outcome, the final filesystem, and the list of
RPC calls issued, each paired with the filesystem state at the moment the
call was issued. -/

/-- `Config.mount` (config.py:141-155). -/
def Config.mount (cfg : Config) (env : RpcEnv) (name : String) (fs : FS) :
    Except EdenErr Unit × FS × List (RpcCall × FS) :=
  match cfg.get_client_info fs name with
  | .error e => (.error e, fs, [])
  | .ok info =>
    let mount_point := info.mount
    match verify_mount_point fs mount_point with
    | (.error e, fs1) => (.error e, fs1, [])
    | (.ok _, fs1) =>
      match cfg.get_or_create_write_dir fs1 name with
      | (.error e, fs2) => (.error e, fs2, [])
      | (.ok _, fs2) =>
        if env.connectOk = false then (.error .edenNotRunning, fs2, [])
        else
          let call := RpcCall.mount mount_point info.clientDir
          match env.reply call with
          | .ok => (.ok (), fs2, [(call, fs2)])
          | .edenError msg => (.error (.serviceError msg), fs2, [(call, fs2)])
          | .transportError msg => (.error (.rpcTransportError msg), fs2, [(call, fs2)])

/-- `Config.unmount` (config.py:157-161).  Note: no `try`/`except` around
the thrift call, so an `EdenError` escapes raw. -/
def Config.unmount (cfg : Config) (env : RpcEnv) (name : String) (fs : FS) :
    Except EdenErr Unit × FS × List (RpcCall × FS) :=
  match cfg.get_client_info fs name with
  | .error e => (.error e, fs, [])
  | .ok info =>
    if env.connectOk = false then (.error .edenNotRunning, fs, [])
    else
      let call := RpcCall.unmount info.mount
      match env.reply call with
      | .ok => (.ok (), fs, [(call, fs)])
      | .edenError msg => (.error (.rawEdenError msg), fs, [(call, fs)])
      | .transportError msg => (.error (.rpcTransportError msg), fs, [(call, fs)])

/-- `Config.checkout` (config.py:129-139).  Note: it performs no
registry write whatsoever. -/
def Config.checkout (cfg : Config) (env : RpcEnv) (name : String)
    (snapshot_id : String) (fs : FS) :
    Except EdenErr Unit × FS × List (RpcCall × FS) :=
  match cfg.get_client_info fs name with
  | .error e => (.error e, fs, [])
  | .ok info =>
    if env.connectOk = false then (.error .edenNotRunning, fs, [])
    else
      let call := RpcCall.checkOutRevision info.mount snapshot_id
      match env.reply call with
      | .ok => (.ok (), fs, [(call, fs)])
      | .edenError msg => (.error (.serviceError msg), fs, [(call, fs)])
      | .transportError msg => (.error (.rpcTransportError msg), fs, [(call, fs)])

/-! ## Daemon supervisor -/

/-- The `fb303` status enum. -/
inductive FbStatus
  | DEAD
  | STARTING
  | ALIVE
  | STOPPING
  | STOPPED
  | WARNING
deriving DecidableEq

/-- The `HealthStatus` class (config.py:335-342). -/
structure HealthStatus where
  status : FbStatus
  pid : Option Nat
  detail : String
deriving DecidableEq

/-- `HealthStatus.is_healthy` (config.py:341-342). -/
def HealthStatus.is_healthy (h : HealthStatus) : Bool :=
  decide (h.status = FbStatus.ALIVE)

/-- Rendering of `'{}'.format(pid)` for an optional pid. -/
def pidStr : Option Nat → String
  | none => "None"
  | some n => toString n

/-- Rendering of a path back to the string handed to the daemon command
line. -/
def pathStr (p : Path) : String := "/" ++ String.intercalate "/" p

/-! ### Environment sanitization -/

/-- The fixed `path_dirs` list (config.py:279-283). -/
def path_dirs : List String := ["/usr/local/bin", "/bin", "/usr/bin"]

/-- The fixed allow-list `preserve` (config.py:290-301). -/
def preserve : List String :=
  ["USER", "LOGNAME", "HOME", "EMAIL", "NAME", "SSH_AUTH_SOCK", "SSH_AGENT_PID"]

/-- Python's `str.startswith`, over the character lists of the strings. -/
def strStartsWith (s pre : String) : Bool := pre.data.isPrefixOf s.data

/-- An environment mapping, as an association list where the first match
wins. -/
abbrev Env := List (String × String)

/-- Dictionary lookup. -/
def envGet (e : Env) (k : String) : Option String :=
  (e.find? (fun kv => kv.1 == k)).map (fun kv => kv.2)

/-- Dictionary assignment `d[k] = v`, represented up to `envGet`. -/
def envSet (e : Env) (k v : String) : Env := (k, v) :: e

/-- One iteration of the copying loop of `_build_eden_environment`
(config.py:303-316). -/
def envStep (acc : Env) (kv : String × String) : Env :=
  if strStartsWith kv.1 "TESTPILOT_" then envSet acc kv.1 kv.2
  else if preserve.contains kv.1 then envSet acc kv.1 kv.2
  else acc

/-- `Config._build_eden_environment` (config.py:276-318), as a function
of the ambient environment `os.environ`. -/
def build_eden_environment (environ : Env) : Env :=
  environ.foldl envStep [("PATH", String.intercalate ":" path_dirs)]

/-! ### Readiness polling -/

/-- What one iteration of the wait loop can observe: the `check_health`
result and `proc.poll()` (`none` while the spawned process is still
running, otherwise the exit status, negative for a signal). -/
structure DaemonObs where
  health : HealthStatus
  procExit : Option Int

/-- The message built from `proc.poll()`'s status (config.py:258-262). -/
def exitMsg (status : Int) : String :=
  if status < 0 then "terminated with signal " ++ toString (-status)
  else "exit status " ++ toString status

/-- The `timeout_ex` of `_wait_for_daemon_healthy` (config.py:269-270). -/
def timeoutErr : EdenErr :=
  .edenStartError "timed out waiting for edenfs to become healthy"

/-- The inner `check_health` closure of `_wait_for_daemon_healthy`
(config.py:250-267): healthy stops the poll, an observed process exit
raises `EdenStartError`, otherwise keep polling. -/
def wait_check_health (obs : DaemonObs) : Except EdenErr (Option HealthStatus) :=
  if obs.health.is_healthy then .ok (some obs.health)
  else
    match obs.procExit with
    | some status =>
      .error (.edenStartError ("edenfs exited before becoming healthy: " ++ exitMsg status))
    | none => .ok none

/-- Modelled from the spec: `util.poll_until` is imported from `util`,
which is not part of the sources; §4.2 step 6 specifies it as repeatedly
invoking the check at a fixed short interval, propagating anything the
check raises, returning the first non-`None` result, and raising
`timeout_ex` once the fixed overall timeout elapses.  Time is discretized
into poll iterations: `i` is the current iteration index and `fuel` the
number of iterations remaining before the deadline. -/
def poll_until (f : Nat → Except EdenErr (Option HealthStatus))
    (timeout_ex : EdenErr) : Nat → Nat → Except EdenErr HealthStatus
  | _, 0 => .error timeout_ex
  | i, fuel + 1 =>
    match f i with
    | .error e => .error e
    | .ok (some h) => .ok h
    | .ok none => poll_until f timeout_ex (i + 1) fuel

/-- `Config._wait_for_daemon_healthy` (config.py:246-271), over the
per-iteration observations `w` with `attempts` iterations allowed before
the 5-second deadline. -/
def wait_for_daemon_healthy (w : Nat → DaemonObs) (attempts : Nat) :
    Except EdenErr HealthStatus :=
  poll_until (fun i => wait_check_health (w i)) timeoutErr 0 attempts

/-! ### spawn -/

/-- The external facts `spawn` consults: the health probe made on entry,
the effective uid, the daemon binary's owner and setuid bit, the ambient
environment, the `time.strftime` timestamp, and the wait-loop
observations with the iteration budget of the 5-second timeout. -/
structure SpawnWorld where
  initialHealth : HealthStatus
  euid : Nat
  binUid : Nat
  binSetuid : Bool
  environ : Env
  startupTime : String
  obs : Nat → DaemonObs
  attempts : Nat

/-- A process-level action performed by `spawn`. -/
inductive SpawnAction
  | execve (cmd : List String) (env : Env)
  | popen (cmd : List String) (env : Env)
deriving DecidableEq

/-- How `spawn` ends when it does not raise. -/
inductive SpawnOutcome
  /-- Foreground mode: `os.execve` replaced the process image. -/
  | execReplaced (cmd : List String) (env : Env)
  /-- Background mode: the daemon became healthy. -/
  | started (h : HealthStatus)
deriving DecidableEq

/-- `Config.spawn` (config.py:189-244). -/
def Config.spawn (cfg : Config) (w : SpawnWorld) (daemon_binary : String)
    (extra_args : List String) (gdb foreground : Bool) (fs : FS) :
    Except EdenErr SpawnOutcome × FS × List SpawnAction :=
  if w.initialHealth.is_healthy then
    (.error (.edenStartError
        ("edenfs is already running (pid " ++ pidStr w.initialHealth.pid ++ ")")),
     fs, [])
  else
    let cmd := [daemon_binary, "--edenDir", pathStr cfg.configDir]
    let cmd := if gdb then ["gdb", "--args"] ++ cmd else cmd
    let foreground := if gdb then true else foreground
    let cmd := cmd ++ extra_args
    let cmd :=
      if w.euid ≠ 0 ∧ ¬(w.binUid = 0 ∧ w.binSetuid) then
        ["/usr/bin/sudo", "-E"] ++ cmd
      else cmd
    let eden_env := build_eden_environment w.environ
    if foreground then (.ok (.execReplaced cmd eden_env), fs, [.execve cmd eden_env])
    else
      let log_path := cfg.configDir ++ ["logs", "edenfs.log"]
      match get_or_create_dir fs log_path.dropLast with
      | (.error e, fs1) => (.error e, fs1, [])
      | (.ok _, fs1) =>
        match openAppendWrite fs1 log_path (w.startupTime ++ ": starting edenfs\n") with
        | (.error e, fs2) => (.error (.osError e), fs2, [])
        | (.ok _, fs2) =>
          match wait_for_daemon_healthy w.obs w.attempts with
          | .error e => (.error e, fs2, [.popen cmd eden_env])
          | .ok h => (.ok (.started h), fs2, [.popen cmd eden_env])

/-! ## Concrete fixtures used by witnesses and counterexamples -/

/-- A registry root at `/eden`. -/
def cfg0 : Config := ⟨["eden"]⟩

/-- A fresh filesystem with the registry root and a mount parent. -/
def fs0 : FS := [(["eden"], FNode.dir), (["mnt"], FNode.dir)]

/-- The registry after creating client `"c"` with snapshot `"abc"`. -/
def fsC : FS := (Config.create_client cfg0 fs0 "c" ["mnt"] "abc" "git" "/repo" false).2

/-- The registry after creating client `"c"` with an empty snapshot id. -/
def fsNoSnap : FS := (Config.create_client cfg0 fs0 "c" ["mnt"] "" "git" "/repo" false).2

/-- An RPC world whose daemon replies an application-level error `"boom"`
to every call. -/
def envBoom : RpcEnv := ⟨true, fun _ => .edenError "boom"⟩

/-- An RPC world whose daemon accepts every call. -/
def envOk : RpcEnv := ⟨true, fun _ => .ok⟩

/-- A filesystem where the rocks-db storage path exists as a regular
file, not a directory. -/
def fsRocks : FS :=
  [(["eden"], FNode.dir), (["eden", "storage"], FNode.dir),
   (["eden", "storage", "rocks-db"], FNode.file "junk")]

/-- A filesystem with a directory `/a` containing a regular file `/a/f`. -/
def fsFile : FS := [(["a"], FNode.dir), (["a", "f"], FNode.file "x")]

/-- Wait-loop observations of a daemon that is never healthy and whose
process has exited with code 1. -/
def obsExit1 : Nat → DaemonObs := fun _ => ⟨⟨FbStatus.DEAD, none, "dead"⟩, some 1⟩

/-- A spawn world whose entry health probe reports the daemon alive with
pid 42. -/
def wAlive : SpawnWorld :=
  ⟨⟨FbStatus.ALIVE, some 42, "up"⟩, 1000, 0, false, [], "t",
   fun _ => ⟨⟨FbStatus.DEAD, none, ""⟩, none⟩, 3⟩

/-- A registry with three clients: `"c"` whose mount point exists,
`"b"` whose mount point's parent is missing, and `"d"` whose mount
point is absent but creatable under the root. -/
def fsM : FS :=
  [(["eden"], FNode.dir), (["eden", "clients"], FNode.dir), (["mnt"], FNode.dir),
   (["eden", "clients", "c"], FNode.dir),
   (["eden", "clients", "c", "config.json"],
     FNode.jfile { bindMounts := [], mount := ["mnt"], repoType := "git",
                   repoSource := "/r" }),
   (["eden", "clients", "c", "SNAPSHOT"], FNode.file "abc\n"),
   (["eden", "clients", "b"], FNode.dir),
   (["eden", "clients", "b", "config.json"],
     FNode.jfile { bindMounts := [], mount := ["mnt3", "sub"], repoType := "git",
                   repoSource := "/r" }),
   (["eden", "clients", "b", "SNAPSHOT"], FNode.file "abc\n"),
   (["eden", "clients", "d"], FNode.dir),
   (["eden", "clients", "d", "config.json"],
     FNode.jfile { bindMounts := [], mount := ["mnt2"], repoType := "git",
                   repoSource := "/r" }),
   (["eden", "clients", "d", "SNAPSHOT"], FNode.file "abc\n")]

/-! ## Filesystem lemmas -/

theorem lookup_nil (fs : FS) : FS.lookup fs [] = some FNode.dir := by
  simp [FS.lookup]

theorem pathExists_nil (fs : FS) : FS.pathExists fs [] = true := by
  simp [FS.pathExists, lookup_nil]

theorem lookup_set_self (fs : FS) (p : Path) (n : FNode) (hp : p ≠ []) :
    FS.lookup (FS.set fs p n) p = some n := by
  simp [FS.lookup, FS.set, FS.lookupA, hp]

theorem lookup_set_ne (fs : FS) (p q : Path) (n : FNode) (hq : q ≠ p) :
    FS.lookup (FS.set fs p n) q = FS.lookup fs q := by
  by_cases h : q = []
  · simp [FS.lookup, h]
  · simp only [FS.lookup, if_neg h, FS.set, FS.lookupA]
    rw [if_neg (by exact fun hpq => hq hpq.symm)]

theorem lookupA_mem (fs : FS) (p : Path) (n : FNode)
    (h : FS.lookupA fs p = some n) : (p, n) ∈ fs := by
  induction fs with
  | nil => simp [FS.lookupA] at h
  | cons e es ih =>
    unfold FS.lookupA at h
    split at h
    · rename_i hep
      cases h
      obtain ⟨a, b⟩ := e
      simp only at hep
      subst hep
      exact List.mem_cons_self _ _
    · exact List.mem_cons_of_mem _ (ih h)

theorem WF_parent (fs : FS) (hwf : FS.WF fs = true) (p : Path)
    (hp : FS.pathExists fs p = true) (hne : p ≠ []) :
    p.dropLast = [] ∨ FS.isdir fs p.dropLast = true := by
  have hl : ∃ n, FS.lookup fs p = some n := by
    cases hval : FS.lookup fs p with
    | none => simp [FS.pathExists, hval] at hp
    | some n => exact ⟨n, rfl⟩
  obtain ⟨n, hn⟩ := hl
  rw [FS.lookup, if_neg hne] at hn
  have hmem : (p, n) ∈ fs := lookupA_mem fs p n hn
  have := (List.all_eq_true.mp hwf) _ hmem
  simp only [Bool.and_eq_true, Bool.or_eq_true, decide_eq_true_eq] at this
  exact this.2

/-! ## `mkdir` and `makedirs` lemmas -/

theorem mkdir_mono (fs : FS) (p : Path) (r : Except Errno Unit) (fs' : FS)
    (h : mkdir fs p = (r, fs')) (q : Path) (n : FNode)
    (hq : FS.lookup fs q = some n) : FS.lookup fs' q = some n := by
  unfold mkdir at h
  split at h
  · cases h; exact hq
  · rename_i hex
    split at h
    · cases h
      have hqp : q ≠ p := by
        intro hqp
        subst hqp
        simp [FS.pathExists, hq] at hex
      rw [lookup_set_ne _ _ _ _ hqp]
      exact hq
    · split at h <;> (cases h; exact hq)

theorem mkdir_len (fs : FS) (p : Path) (r : Except Errno Unit) (fs' : FS)
    (h : mkdir fs p = (r, fs')) (q : Path) (hlen : p.length < q.length) :
    FS.lookup fs' q = FS.lookup fs q := by
  have hqp : q ≠ p := by
    intro hqp
    subst hqp
    omega
  unfold mkdir at h
  split at h
  · cases h; rfl
  · split at h
    · cases h
      exact lookup_set_ne _ _ _ _ hqp
    · split at h <;> (cases h; rfl)

theorem mkdir_ok_parts (fs : FS) (p : Path) (u : Unit) (fs' : FS)
    (h : mkdir fs p = (.ok u, fs')) :
    FS.pathExists fs p = false ∧ FS.isdir fs p.dropLast = true
      ∧ fs' = FS.set fs p FNode.dir := by
  unfold mkdir at h
  split at h
  · simp at h
  · rename_i hex
    split at h
    · rename_i hdir
      cases h
      exact ⟨by simpa using hex, hdir, rfl⟩
    · split at h <;> simp at h

theorem mkdir_eexist (fs : FS) (p : Path) (fs' : FS)
    (h : mkdir fs p = (.error Errno.EEXIST, fs')) :
    FS.pathExists fs p = true := by
  unfold mkdir at h
  split at h
  · assumption
  · split at h
    · simp at h
    · split at h <;> simp at h

theorem makedirsF_mono (fuel : Nat) :
    ∀ fs p r fs', makedirsF fuel fs p = (r, fs') →
      ∀ q n, FS.lookup fs q = some n → FS.lookup fs' q = some n := by
  induction fuel with
  | zero =>
    intro fs p r fs' h q n hq
    exact mkdir_mono fs p r fs' h q n hq
  | succ fuel ih =>
    intro fs p r fs' h q n hq
    unfold makedirsF at h
    split at h
    · split at h
      · rename_i e fs1 hrec
        have hq1 := ih fs p.dropLast _ fs1 hrec q n hq
        split at h
        · exact mkdir_mono fs1 p r fs' h q n hq1
        · cases h; exact hq1
      · rename_i u fs1 hrec
        have hq1 := ih fs p.dropLast _ fs1 hrec q n hq
        exact mkdir_mono fs1 p r fs' h q n hq1
    · exact mkdir_mono fs p r fs' h q n hq

theorem makedirsF_len (fuel : Nat) :
    ∀ fs p r fs', makedirsF fuel fs p = (r, fs') →
      ∀ q, p.length < q.length → FS.lookup fs' q = FS.lookup fs q := by
  induction fuel with
  | zero =>
    intro fs p r fs' h q hlen
    exact mkdir_len fs p r fs' h q hlen
  | succ fuel ih =>
    intro fs p r fs' h q hlen
    have hdl : p.dropLast.length < q.length := by
      have := List.length_dropLast p
      omega
    unfold makedirsF at h
    split at h
    · split at h
      · rename_i e fs1 hrec
        have hq1 := ih fs p.dropLast _ fs1 hrec q hdl
        split at h
        · rw [mkdir_len fs1 p r fs' h q hlen, hq1]
        · cases h; exact hq1
      · rename_i u fs1 hrec
        have hq1 := ih fs p.dropLast _ fs1 hrec q hdl
        rw [mkdir_len fs1 p r fs' h q hlen, hq1]
    · exact mkdir_len fs p r fs' h q hlen

theorem makedirsF_ok_dir (fuel : Nat) :
    ∀ fs p u fs', makedirsF fuel fs p = (.ok u, fs') →
      FS.lookup fs' p = some FNode.dir := by
  have base : ∀ (fs1 : FS) (p : Path) (u : Unit) (fs' : FS),
      mkdir fs1 p = (.ok u, fs') → FS.lookup fs' p = some FNode.dir := by
    intro fs1 p u fs' h
    obtain ⟨hex, _, hset⟩ := mkdir_ok_parts fs1 p u fs' h
    have hp : p ≠ [] := by
      intro hp
      subst hp
      rw [pathExists_nil] at hex
      exact absurd hex (by simp)
    rw [hset]
    exact lookup_set_self fs1 p FNode.dir hp
  intro fs p u fs' h
  cases fuel with
  | zero => exact base fs p u fs' h
  | succ fuel =>
    unfold makedirsF at h
    split at h
    · split at h
      · split at h
        · exact base _ p u fs' h
        · simp at h
      · exact base _ p u fs' h
    · exact base fs p u fs' h

theorem makedirsF_eexist (fuel : Nat) :
    ∀ fs p fs', makedirsF fuel fs p = (.error Errno.EEXIST, fs') →
      FS.pathExists fs p = true := by
  induction fuel with
  | zero =>
    intro fs p fs' h
    exact mkdir_eexist fs p fs' h
  | succ fuel _ =>
    intro fs p fs' h
    unfold makedirsF at h
    split at h
    · rename_i hguard
      have hne : p ≠ [] := by
        intro hp
        exact hguard.1 (by simp [hp])
      have hlen : p.dropLast.length < p.length := by
        have h1 := List.length_dropLast p
        have h2 : 0 < p.length := List.length_pos.mpr hne
        omega
      split at h
      · rename_i e fs1 hrec
        have hpres := makedirsF_len fuel fs p.dropLast _ fs1 hrec p hlen
        split at h
        · have := mkdir_eexist fs1 p fs' h
          simpa [FS.pathExists, hpres] using this
        · rename_i hnee
          exfalso
          apply hnee
          have h1 := congrArg Prod.fst h
          simpa using h1
      · rename_i u fs1 hrec
        have hpres := makedirsF_len fuel fs p.dropLast _ fs1 hrec p hlen
        have := mkdir_eexist fs1 p fs' h
        simpa [FS.pathExists, hpres] using this
    · exact mkdir_eexist fs p fs' h

theorem makedirs_mono (fs : FS) (p : Path) (r : Except Errno Unit) (fs' : FS)
    (h : makedirs fs p = (r, fs')) (q : Path) (n : FNode)
    (hq : FS.lookup fs q = some n) : FS.lookup fs' q = some n :=
  makedirsF_mono p.length fs p r fs' h q n hq

theorem makedirs_ok_dir (fs : FS) (p : Path) (u : Unit) (fs' : FS)
    (h : makedirs fs p = (.ok u, fs')) : FS.lookup fs' p = some FNode.dir :=
  makedirsF_ok_dir p.length fs p u fs' h

theorem makedirs_eexist (fs : FS) (p : Path) (fs' : FS)
    (h : makedirs fs p = (.error Errno.EEXIST, fs')) :
    FS.pathExists fs p = true :=
  makedirsF_eexist p.length fs p fs' h

theorem openWrite_ok (fs : FS) (p : Path) (n : FNode) (u : Unit) (fs' : FS)
    (h : openWrite fs p n = (.ok u, fs')) :
    fs' = FS.set fs p n ∧ p ≠ [] := by
  unfold openWrite at h
  split at h
  · simp at h
  · rename_i val hvd heq
    cases h
    refine ⟨rfl, ?_⟩
    intro hp
    subst hp
    rw [lookup_nil] at heq
    cases heq
    exact hvd rfl
  · rename_i heq
    have hp : p ≠ [] := by
      intro hp
      subst hp
      rw [lookup_nil] at heq
      cases heq
    split at h
    · cases h; exact ⟨rfl, hp⟩
    · split at h <;> simp at h

/-! ## `pyStrip` lemmas -/

theorem isPySpace_nl : isPySpace '\n' = true := by decide

theorem dropTrail_append_newline (l : List Char) :
    dropTrail (l ++ ['\n']) = dropTrail l := by
  simp [dropTrail, List.dropWhile_cons_of_pos, isPySpace_nl]

theorem stripChars_parts (l : List Char) (h : stripChars l = l) :
    l.dropWhile isPySpace = l ∧ dropTrail l = l := by
  have h1 : (l.dropWhile isPySpace).length ≤ l.length :=
    (List.dropWhile_sublist isPySpace).length_le
  have h2 : (dropTrail (l.dropWhile isPySpace)).length
      ≤ (l.dropWhile isPySpace).length := by
    unfold dropTrail
    rw [List.length_reverse]
    calc ((l.dropWhile isPySpace).reverse.dropWhile isPySpace).length
        ≤ (l.dropWhile isPySpace).reverse.length :=
          (List.dropWhile_sublist isPySpace).length_le
      _ = (l.dropWhile isPySpace).length := List.length_reverse _
  have hlen : (stripChars l).length = l.length := by rw [h]
  unfold stripChars at hlen
  have hdw : (l.dropWhile isPySpace).length = l.length := by omega
  have hdweq : l.dropWhile isPySpace = l :=
    (List.dropWhile_sublist isPySpace).eq_of_length hdw
  refine ⟨hdweq, ?_⟩
  have := h
  unfold stripChars at this
  rw [hdweq] at this
  exact this

theorem stripChars_append_newline (l : List Char) (h : stripChars l = l) :
    stripChars (l ++ ['\n']) = l := by
  obtain ⟨hfront, htail⟩ := stripChars_parts l h
  cases l with
  | nil => decide
  | cons a l' =>
    have ha : isPySpace a = false := by
      by_contra hc
      have hpa : isPySpace a = true := by
        cases hval : isPySpace a
        · exact absurd hval hc
        · rfl
      rw [List.dropWhile_cons_of_pos hpa] at hfront
      have := congrArg List.length hfront
      have hle : (l'.dropWhile isPySpace).length ≤ l'.length :=
        (List.dropWhile_sublist isPySpace).length_le
      simp at this
      omega
    have hstep : (a :: l' ++ ['\n']).dropWhile isPySpace = a :: l' ++ ['\n'] :=
      List.dropWhile_cons_of_neg (by simp [ha])
    unfold stripChars
    rw [hstep, dropTrail_append_newline, htail]

theorem pyStrip_concat_newline (s : String) (h : pyStrip s = s) :
    pyStrip (s ++ "\n") = s := by
  have hdata : stripChars s.data = s.data := congrArg String.data h
  have : (s ++ "\n").data = s.data ++ ['\n'] := by
    rw [String.data_append]
  unfold pyStrip
  rw [this, stripChars_append_newline s.data hdata]

/-! ## Path helper lemmas -/

theorem path_ne_append_singleton (a : Path) (x : String) : a ≠ a ++ [x] := by
  intro h
  have := congrArg List.length h
  simp at this

theorem append_singleton_ne (a : Path) (x y : String) (h : x ≠ y) :
    a ++ [x] ≠ a ++ [y] := by
  intro hc
  exact h (by simpa using List.append_cancel_left hc)

theorem append_singleton_ne_nil (a : Path) (x : String) : a ++ [x] ≠ [] := by
  simp

/-! ## Claim C1 -/

/-- C1 (amended): for every valid client name, if `create_client`
succeeds with a snapshot id that is nonempty and trimmed, then
`get_client_info` on that name returns a record whose `mount`,
`bind-mounts` and `snapshot` fields are exactly the supplied values (the
bind-mounts mapping being the one determined by the build-artifacts
flag).  The original claim also admitted an absent/empty snapshot id,
which the code refutes: see the counterexample. -/
theorem spec_c1_round_trip (cfg : Config) (fs fs' : FS) (name : String)
    (mount_point : Path) (snapshot_id repo_type repo_source : String)
    (with_buck : Bool)
    (hsid : snapshot_id ≠ "")
    (htrim : pyStrip snapshot_id = snapshot_id)
    (h : cfg.create_client fs name mount_point snapshot_id repo_type repo_source
        with_buck = (.ok (), fs')) :
    cfg.get_client_info fs' name =
      .ok { bindMounts := if with_buck then [("buck-out", "buck-out")] else []
            mount := mount_point
            snapshot := snapshot_id
            clientDir := cfg.clientsDir ++ [name] } := by
  simp only [Config.create_client] at h
  split at h
  · simp at h
  rename_i u1 fs1 hv
  split at h
  · simp at h
  rename_i hnd
  split at h
  · simp at h
  rename_i u2 fs2 hm1
  split at h
  · simp at h
  rename_i u3 fs3 hm2
  split at h
  · simp at h
  rename_i u4 fs4 hm3
  split at h
  · simp at h
  rename_i u5 fs5 hw1
  split at h
  · simp at h
  rename_i u6 fs6 hw2
  have hfs' : fs' = fs6 := by
    have := congrArg Prod.snd h
    simpa using this.symm
  subst hfs'
  obtain ⟨hset6, hsnp_ne⟩ := openWrite_ok _ _ _ _ _ hw2
  obtain ⟨hset5, hcfg_ne⟩ := openWrite_ok _ _ _ _ _ hw1
  have hpathne : cfg.clientsDir ++ [name] ++ [CONFIG_JSON]
      ≠ cfg.clientsDir ++ [name] ++ [SNAPSHOT] :=
    append_singleton_ne _ _ _ (by decide)
  have lsnap : FS.lookup fs' (cfg.clientsDir ++ [name] ++ [SNAPSHOT])
      = some (FNode.file (snapshot_id ++ "\n")) := by
    rw [hset6]
    exact lookup_set_self _ _ _ hsnp_ne
  have lcfg : FS.lookup fs' (cfg.clientsDir ++ [name] ++ [CONFIG_JSON])
      = some (FNode.jfile
          { bindMounts := if with_buck then [("buck-out", "buck-out")] else []
            mount := mount_point
            repoType := repo_type
            repoSource := repo_source }) := by
    rw [hset6, lookup_set_ne _ _ _ _ hpathne, hset5]
    exact lookup_set_self _ _ _ hcfg_ne
  have l2 : FS.lookup fs2 (cfg.clientsDir ++ [name]) = some FNode.dir :=
    makedirs_ok_dir _ _ _ _ hm1
  have l3 : FS.lookup fs3 (cfg.clientsDir ++ [name]) = some FNode.dir :=
    makedirs_mono _ _ _ _ hm2 _ _ l2
  have l4 : FS.lookup fs4 (cfg.clientsDir ++ [name]) = some FNode.dir := by
    by_cases hwb : with_buck = true
    · rw [if_pos hwb] at hm3
      exact makedirs_mono _ _ _ _ hm3 _ _ l3
    · rw [if_neg hwb] at hm3
      have := congrArg Prod.snd hm3
      simp at this
      rw [← this]
      exact l3
  have ldir : FS.lookup fs' (cfg.clientsDir ++ [name]) = some FNode.dir := by
    rw [hset6, lookup_set_ne _ _ _ _ (path_ne_append_singleton _ _),
        hset5, lookup_set_ne _ _ _ _ (path_ne_append_singleton _ _)]
    exact l4
  have hisdir : FS.isdir fs' (cfg.clientsDir ++ [name]) = true := by
    simp [FS.isdir, ldir]
  simp only [Config.get_client_info, readJson, readFile, hisdir, lcfg, lsnap]
  simp [pyStrip_concat_newline snapshot_id htrim]

/-- C1 counterexample: with an absent/empty snapshot id (valid per the
claim), `create_client` succeeds but writes no SNAPSHOT file, and the
subsequent `get_client_info` does not return a record at all: it fails
opening the missing SNAPSHOT file. -/
theorem spec_c1_counterexample :
    (Config.create_client ⟨["eden"]⟩ [(["eden"], FNode.dir), (["mnt"], FNode.dir)]
        "c" ["mnt"] "" "git" "/repo" false).1 = .ok ()
    ∧ Config.get_client_info ⟨["eden"]⟩
        (Config.create_client ⟨["eden"]⟩ [(["eden"], FNode.dir), (["mnt"], FNode.dir)]
          "c" ["mnt"] "" "git" "/repo" false).2 "c"
      = .error (.osError .ENOENT) := by
  constructor
  · decide
  · decide

/-- C1 witness: a concrete successful creation with snapshot id `"abc"`
round-trips through `get_client_info`. -/
theorem spec_c1_round_trip_witness :
    ("abc" ≠ "" ∧ pyStrip "abc" = "abc"
      ∧ Config.create_client ⟨["eden"]⟩ [(["eden"], FNode.dir), (["mnt"], FNode.dir)]
          "c" ["mnt"] "abc" "git" "/repo" false
        = (.ok (), (Config.create_client ⟨["eden"]⟩
            [(["eden"], FNode.dir), (["mnt"], FNode.dir)]
            "c" ["mnt"] "abc" "git" "/repo" false).2))
    ∧ Config.get_client_info ⟨["eden"]⟩
        (Config.create_client ⟨["eden"]⟩ [(["eden"], FNode.dir), (["mnt"], FNode.dir)]
          "c" ["mnt"] "abc" "git" "/repo" false).2 "c"
      = .ok { bindMounts := []
              mount := ["mnt"]
              snapshot := "abc"
              clientDir := Config.clientsDir ⟨["eden"]⟩ ++ ["c"] } :=
  ⟨⟨by decide, by decide, by decide⟩,
    spec_c1_round_trip ⟨["eden"]⟩ [(["eden"], FNode.dir), (["mnt"], FNode.dir)] _
      "c" ["mnt"] "abc" "git" "/repo" false (by decide) (by decide) (by decide)⟩

/-! ## Claim C8 -/

/-- C8: `checkout` never modifies the registry's persisted state — the
returned filesystem is the input filesystem, for every client name,
snapshot id, and RPC outcome (success, application error, transport
error, or no connection). -/
theorem spec_c8_checkout_frame (cfg : Config) (env : RpcEnv)
    (name snap : String) (fs : FS) :
    (Config.checkout cfg env name snap fs).2.1 = fs := by
  unfold Config.checkout
  split
  · rfl
  · split
    · rfl
    · dsimp only
      split <;> rfl

/-! ## Claim C9 -/

/-- C9: for a client whose directory exists and holds a readable config
document but no SNAPSHOT file (the state `create_client` leaves for an
empty snapshot id), `get_client_info` does not return a record with an
empty snapshot: it fails with the error of opening the missing SNAPSHOT
file, which is not the no-such-client error. -/
theorem spec_c9_missing_snapshot (cfg : Config) (fs : FS) (name : String)
    (cd : ConfigData)
    (h1 : FS.isdir fs (cfg.clientsDir ++ [name]) = true)
    (h2 : readJson fs (cfg.clientsDir ++ [name] ++ [CONFIG_JSON]) = .ok cd)
    (h3 : FS.lookup fs (cfg.clientsDir ++ [name] ++ [SNAPSHOT]) = none) :
    cfg.get_client_info fs name = .error (.osError .ENOENT)
    ∧ (EdenErr.osError .ENOENT) ≠ (.noSuchClient name) := by
  have h2a : readJson fs (cfg.clientsDir ++ [name, CONFIG_JSON]) = .ok cd := by
    simpa using h2
  have h3a : FS.lookup fs (cfg.clientsDir ++ [name, SNAPSHOT]) = none := by
    simpa using h3
  constructor
  · simp [Config.get_client_info, h1, h2a, readFile, h3a]
  · simp

/-- C9 witness: the concrete registry left by `create_client` with an
empty snapshot id satisfies the hypotheses, and `get_client_info` fails
there with the missing-file error. -/
theorem spec_c9_witness :
    (FS.isdir fsNoSnap (Config.clientsDir cfg0 ++ ["c"]) = true
      ∧ readJson fsNoSnap (Config.clientsDir cfg0 ++ ["c"] ++ [CONFIG_JSON])
          = .ok { bindMounts := [], mount := ["mnt"], repoType := "git",
                  repoSource := "/repo" }
      ∧ FS.lookup fsNoSnap (Config.clientsDir cfg0 ++ ["c"] ++ [SNAPSHOT]) = none)
    ∧ Config.get_client_info cfg0 fsNoSnap "c" = .error (.osError .ENOENT)
    ∧ (EdenErr.osError .ENOENT) ≠ (.noSuchClient "c") :=
  ⟨⟨by decide, by decide, by decide⟩,
    spec_c9_missing_snapshot cfg0 fsNoSnap "c"
      { bindMounts := [], mount := ["mnt"], repoType := "git", repoSource := "/repo" }
      (by decide) (by decide) (by decide)⟩

/-! ## Claim C10 -/

/-- C10: `create_client` validates the mount point before the
duplicate-name check.  With the client name already taken: a mount point
whose parent is missing produces the mount-point error, not the
client-exists error; a mount point that is absent under an existing
parent is created as a side effect even though the call then fails with
the client-exists error, and no path other than the mount point is
touched by the failed call. -/
theorem spec_c10_validate_before_duplicate (cfg : Config) (fs : FS)
    (name : String) (mount_point : Path) (sid rt rs : String) (wb : Bool)
    (hclient : FS.isdir fs (cfg.clientsDir ++ [name]) = true) :
    (FS.isdir fs mount_point = false → FS.isdir fs mount_point.dropLast = false →
      cfg.create_client fs name mount_point sid rt rs wb
        = (.error (.invalidMountPoint mount_point.dropLast mount_point), fs))
    ∧ (FS.pathExists fs mount_point = false →
        FS.isdir fs mount_point.dropLast = true →
      cfg.create_client fs name mount_point sid rt rs wb
          = (.error (.clientExists name), FS.set fs mount_point FNode.dir)
        ∧ ∀ q, q ≠ mount_point →
            FS.lookup (FS.set fs mount_point FNode.dir) q = FS.lookup fs q) := by
  constructor
  · intro hmp hpar
    simp [Config.create_client, verify_mount_point, hmp, hpar]
  · intro hmp hpar
    have hnd : FS.isdir fs mount_point = false := by
      cases hval : FS.lookup fs mount_point with
      | none => simp [FS.isdir, hval]
      | some m => simp [FS.pathExists, hval] at hmp
    have hmpne : cfg.clientsDir ++ [name] ≠ mount_point := by
      intro he
      have hpe : FS.pathExists fs (cfg.clientsDir ++ [name]) = true := by
        have hl : FS.lookup fs (cfg.clientsDir ++ [name]) = some FNode.dir := by
          simpa [FS.isdir] using hclient
        simp [FS.pathExists, hl]
      rw [he, hmp] at hpe
      cases hpe
    have hisdir1 : FS.isdir (FS.set fs mount_point FNode.dir)
        (cfg.clientsDir ++ [name]) = true := by
      unfold FS.isdir
      rw [lookup_set_ne fs mount_point _ FNode.dir hmpne]
      simpa [FS.isdir] using hclient
    refine ⟨?_, fun q hq => lookup_set_ne fs mount_point q FNode.dir hq⟩
    simp [Config.create_client, verify_mount_point, mkdir, hnd, hpar, hmp, hisdir1]

/-- C10 witness: with client `"c"` existing, a mount point under a
missing parent yields the mount-point error, and an absent mount point
under the root is created while the call fails with the client-exists
error. -/
theorem spec_c10_witness :
    (FS.isdir fsC (Config.clientsDir cfg0 ++ ["c"]) = true
      ∧ FS.isdir fsC ["nope", "sub"] = false
      ∧ FS.isdir fsC (List.dropLast ["nope", "sub"]) = false
      ∧ FS.pathExists fsC ["mnt2"] = false
      ∧ FS.isdir fsC (List.dropLast ["mnt2"]) = true)
    ∧ Config.create_client cfg0 fsC "c" ["nope", "sub"] "s" "git" "/repo" false
        = (.error (.invalidMountPoint (List.dropLast ["nope", "sub"]) ["nope", "sub"]),
           fsC)
    ∧ Config.create_client cfg0 fsC "c" ["mnt2"] "s" "git" "/repo" false
        = (.error (.clientExists "c"), FS.set fsC ["mnt2"] FNode.dir) :=
  ⟨⟨by decide, by decide, by decide, by decide, by decide⟩,
    (spec_c10_validate_before_duplicate cfg0 fsC "c" ["nope", "sub"] "s" "git" "/repo"
      false (by decide)).1 (by decide) (by decide),
    ((spec_c10_validate_before_duplicate cfg0 fsC "c" ["mnt2"] "s" "git" "/repo"
      false (by decide)).2 (by decide) (by decide)).1⟩

/-! ## Claim C7 -/

theorem makedirs_no_recursion (fs : FS) (p : Path)
    (h : p.dropLast = [] ∨ FS.pathExists fs p.dropLast = true) :
    makedirs fs p = mkdir fs p := by
  have hcond : ¬(p.dropLast ≠ [] ∧ FS.pathExists fs p.dropLast = false) := by
    rintro ⟨hg1, hg2⟩
    rcases h with h | h
    · exact hg1 h
    · rw [h] at hg2
      cases hg2
  unfold makedirs
  cases hp : p.length with
  | zero => simp only [makedirsF]
  | succ m => simp only [makedirsF, if_neg hcond]

/-- C7 (amended): the get-or-create directory helpers succeed silently
and change nothing whenever the target path already exists — whether as
a directory or as a non-directory, because only the `EEXIST` code is
swallowed, without checking that the existing node is a directory; any
other `makedirs` failure propagates (e.g. `ENOTDIR` when a parent
component is a regular file); and success on a fresh target means the
directory now exists.  The original claim said an existing non-directory
target propagates a failure, which the code refutes: see the
counterexample. -/
theorem spec_c7_get_or_create_dir (fs : FS) (p : Path) :
    (FS.WF fs = true → FS.pathExists fs p = true →
      get_or_create_dir fs p = (.ok p, fs))
    ∧ (∀ e fs1, makedirs fs p = (.error e, fs1) → e ≠ .EEXIST →
      get_or_create_dir fs p = (.error (.osError e), fs1))
    ∧ (∀ c, FS.lookup fs p.dropLast = some (FNode.file c) →
      FS.pathExists fs p = false →
      get_or_create_dir fs p = (.error (.osError .ENOTDIR), fs))
    ∧ (∀ fs2, FS.pathExists fs p = false →
      get_or_create_dir fs p = (.ok p, fs2) → FS.isdir fs2 p = true) := by
  refine ⟨?_, ?_, ?_, ?_⟩
  · intro hwf hex
    have hpar : p.dropLast = [] ∨ FS.pathExists fs p.dropLast = true := by
      by_cases hp : p = []
      · exact Or.inl (by simp [hp])
      · rcases WF_parent fs hwf p hex hp with h | h
        · exact Or.inl h
        · refine Or.inr ?_
          have hl : FS.lookup fs p.dropLast = some FNode.dir := by
            simpa [FS.isdir] using h
          simp [FS.pathExists, hl]
    simp [get_or_create_dir, makedirs_no_recursion fs p hpar, mkdir, hex]
  · intro e fs1 hmk hne
    simp [get_or_create_dir, hmk, hne]
  · intro c hpar hex
    have hpe : FS.pathExists fs p.dropLast = true := by
      simp [FS.pathExists, hpar]
    have hnr : makedirs fs p = mkdir fs p := makedirs_no_recursion fs p (Or.inr hpe)
    have hnd : FS.isdir fs p.dropLast = false := by
      simp [FS.isdir, hpar]
    simp [get_or_create_dir, hnr, mkdir, hex, hnd, hpe]
  · intro fs2 hex hok
    unfold get_or_create_dir at hok
    split at hok
    · rename_i e fs1 hmk
      split at hok
      · rename_i he
        subst he
        have := makedirs_eexist fs p fs1 hmk
        rw [hex] at this
        cases this
      · simp at hok
    · rename_i u fs1 hmk
      have hdir := makedirs_ok_dir fs p u fs1 hmk
      have h21 : fs1 = fs2 := by
        have := congrArg Prod.snd hok
        simpa using this
      rw [← h21]
      simp [FS.isdir, hdir]

/-- C7 counterexample: the storage-root helper succeeds silently when
the rocks-db path already exists as a regular file — the failure the
claim requires is not propagated. -/
theorem spec_c7_counterexample :
    FS.lookup fsRocks (Config.configDir cfg0 ++ ROCKS_DB_DIR)
        = some (FNode.file "junk")
    ∧ Config.get_or_create_path_to_rocks_db cfg0 fsRocks
        = (.ok (Config.configDir cfg0 ++ ROCKS_DB_DIR), fsRocks) := by
  constructor
  · decide
  · decide

/-- C7 witness: concrete instances of all four amended conjuncts on a
filesystem holding a regular file `/a/f`. -/
theorem spec_c7_witness :
    (FS.WF fsFile = true ∧ FS.pathExists fsFile ["a", "f"] = true
      ∧ get_or_create_dir fsFile ["a", "f"] = (.ok ["a", "f"], fsFile))
    ∧ (makedirs fsFile ["a", "f", "z"] = (.error .ENOTDIR, fsFile)
      ∧ (Errno.ENOTDIR ≠ .EEXIST)
      ∧ get_or_create_dir fsFile ["a", "f", "z"]
          = (.error (.osError .ENOTDIR), fsFile))
    ∧ (FS.lookup fsFile (List.dropLast ["a", "f", "z"]) = some (FNode.file "x")
      ∧ FS.pathExists fsFile ["a", "f", "z"] = false
      ∧ get_or_create_dir fsFile ["a", "f", "z"]
          = (.error (.osError .ENOTDIR), fsFile))
    ∧ (FS.pathExists fsFile ["a", "d"] = false
      ∧ FS.isdir (get_or_create_dir fsFile ["a", "d"]).2 ["a", "d"] = true) := by
  refine ⟨⟨by decide, by decide, ?_⟩, ⟨by decide, by decide, ?_⟩,
    ⟨by decide, by decide, ?_⟩, ⟨by decide, ?_⟩⟩
  · exact (spec_c7_get_or_create_dir fsFile ["a", "f"]).1 (by decide) (by decide)
  · exact (spec_c7_get_or_create_dir fsFile ["a", "f", "z"]).2.1 .ENOTDIR fsFile
      (by decide) (by decide)
  · exact (spec_c7_get_or_create_dir fsFile ["a", "f", "z"]).2.2.1 "x"
      (by decide) (by decide)
  · exact (spec_c7_get_or_create_dir fsFile ["a", "d"]).2.2.2
      (get_or_create_dir fsFile ["a", "d"]).2 (by decide) (by decide)

/-! ## Claim C2 -/

/-- C2 (amended): when the daemon replies to the issued RPC call with an
application-level error carrying a message, `mount` and `checkout` fail
with the reboxed local error carrying exactly that message; `unmount`,
which has no such translation, propagates the raw service exception.
The original claim asserted the translation for all three operations,
which the code refutes for `unmount`: see the counterexample. -/
theorem spec_c2_service_errors (cfg : Config) (env : RpcEnv)
    (name snap msg : String) (fs : FS) :
    (∀ c fsc, (Config.mount cfg env name fs).2.2 = [(c, fsc)] →
      env.reply c = .edenError msg →
      (Config.mount cfg env name fs).1 = .error (.serviceError msg))
    ∧ (∀ c fsc, (Config.checkout cfg env name snap fs).2.2 = [(c, fsc)] →
      env.reply c = .edenError msg →
      (Config.checkout cfg env name snap fs).1 = .error (.serviceError msg))
    ∧ (∀ c fsc, (Config.unmount cfg env name fs).2.2 = [(c, fsc)] →
      env.reply c = .edenError msg →
      (Config.unmount cfg env name fs).1 = .error (.rawEdenError msg)) := by
  refine ⟨?_, ?_, ?_⟩
  · generalize hop : Config.mount cfg env name fs = res
    intro c fsc htr hrep
    unfold Config.mount at hop
    split at hop
    · cases hop; simp at htr
    · dsimp only at hop
      split at hop
      · cases hop; simp at htr
      · split at hop
        · cases hop; simp at htr
        · split at hop
          · cases hop; simp at htr
          · split at hop
            all_goals rename_i heq
            all_goals cases hop
            all_goals simp only [List.cons.injEq, Prod.mk.injEq, and_true] at htr
            all_goals obtain ⟨hc, hfs⟩ := htr
            all_goals subst hc
            all_goals rw [heq] at hrep
            · simp at hrep
            · simp only [RpcReply.edenError.injEq] at hrep
              subst hrep
              rfl
            · simp at hrep
  · generalize hop : Config.checkout cfg env name snap fs = res
    intro c fsc htr hrep
    unfold Config.checkout at hop
    split at hop
    · cases hop; simp at htr
    · split at hop
      · cases hop; simp at htr
      · dsimp only at hop
        split at hop
        all_goals rename_i heq
        all_goals cases hop
        all_goals simp only [List.cons.injEq, Prod.mk.injEq, and_true] at htr
        all_goals obtain ⟨hc, hfs⟩ := htr
        all_goals subst hc
        all_goals rw [heq] at hrep
        · simp at hrep
        · simp only [RpcReply.edenError.injEq] at hrep
          subst hrep
          rfl
        · simp at hrep
  · generalize hop : Config.unmount cfg env name fs = res
    intro c fsc htr hrep
    unfold Config.unmount at hop
    split at hop
    · cases hop; simp at htr
    · split at hop
      · cases hop; simp at htr
      · dsimp only at hop
        split at hop
        all_goals rename_i heq
        all_goals cases hop
        all_goals simp only [List.cons.injEq, Prod.mk.injEq, and_true] at htr
        all_goals obtain ⟨hc, hfs⟩ := htr
        all_goals subst hc
        all_goals rw [heq] at hrep
        · simp at hrep
        · simp only [RpcReply.edenError.injEq] at hrep
          subst hrep
          rfl
        · simp at hrep

/-- C2 counterexample: the daemon replies an application-level error
`"boom"` to the unmount call, and `unmount` fails with the raw service
exception — not with the message-preserving reboxed error the claim
requires. -/
theorem spec_c2_counterexample :
    (Config.unmount cfg0 envBoom "c" fsC).1 = .error (.rawEdenError "boom")
    ∧ (Config.unmount cfg0 envBoom "c" fsC).1 ≠ .error (.serviceError "boom") := by
  constructor
  · decide
  · decide

/-- C2 witness: concrete reboxing for mount and checkout, and raw
propagation for unmount, against a daemon rejecting every call with
`"boom"`. -/
theorem spec_c2_witness :
    ((Config.mount cfg0 envBoom "c" fsC).2.2
        = [(RpcCall.mount ["mnt"] ["eden", "clients", "c"],
            FS.set fsC ["eden", "clients", "c", "local"] FNode.dir)]
      ∧ envBoom.reply (RpcCall.mount ["mnt"] ["eden", "clients", "c"])
          = .edenError "boom"
      ∧ (Config.mount cfg0 envBoom "c" fsC).1 = .error (.serviceError "boom"))
    ∧ ((Config.checkout cfg0 envBoom "c" "rev" fsC).2.2
        = [(RpcCall.checkOutRevision ["mnt"] "rev", fsC)]
      ∧ envBoom.reply (RpcCall.checkOutRevision ["mnt"] "rev") = .edenError "boom"
      ∧ (Config.checkout cfg0 envBoom "c" "rev" fsC).1
          = .error (.serviceError "boom"))
    ∧ ((Config.unmount cfg0 envBoom "c" fsC).2.2
        = [(RpcCall.unmount ["mnt"], fsC)]
      ∧ envBoom.reply (RpcCall.unmount ["mnt"]) = .edenError "boom"
      ∧ (Config.unmount cfg0 envBoom "c" fsC).1 = .error (.rawEdenError "boom")) :=
  ⟨⟨by decide, by decide,
      (spec_c2_service_errors cfg0 envBoom "c" "rev" "boom" fsC).1
        (RpcCall.mount ["mnt"] ["eden", "clients", "c"])
        (FS.set fsC ["eden", "clients", "c", "local"] FNode.dir)
        (by decide) (by decide)⟩,
    ⟨by decide, by decide,
      (spec_c2_service_errors cfg0 envBoom "c" "rev" "boom" fsC).2.1
        (RpcCall.checkOutRevision ["mnt"] "rev") fsC (by decide) (by decide)⟩,
    ⟨by decide, by decide,
      (spec_c2_service_errors cfg0 envBoom "c" "rev" "boom" fsC).2.2
        (RpcCall.unmount ["mnt"]) fsC (by decide) (by decide)⟩⟩

/-! ## Claim C6 -/

theorem get_client_info_ok (cfg : Config) (fs : FS) (name : String)
    (info : ClientInfo) (h : cfg.get_client_info fs name = .ok info) :
    info.clientDir = cfg.clientsDir ++ [name]
    ∧ FS.isdir fs (cfg.clientsDir ++ [name]) = true := by
  unfold Config.get_client_info at h
  dsimp only at h
  split at h
  · simp at h
  rename_i hdir
  split at h
  · simp at h
  rename_i cd hcd
  split at h
  · simp at h
  rename_i raw hraw
  cases h
  exact ⟨rfl, by simpa using hdir⟩

theorem write_dir_ok (cfg : Config) (fs : FS) (name : String)
    (hdir : FS.isdir fs (cfg.clientsDir ++ [name]) = true) :
    ∃ fs2, cfg.get_or_create_write_dir fs name
        = (.ok (cfg.clientsDir ++ [name, "local"]), fs2)
      ∧ (∀ q n, FS.lookup fs q = some n → FS.lookup fs2 q = some n) := by
  have hdl : (cfg.clientsDir ++ [name, "local"]).dropLast
      = cfg.clientsDir ++ [name] := by
    have hsplit : cfg.clientsDir ++ [name, "local"]
        = (cfg.clientsDir ++ [name]) ++ ["local"] := by simp
    rw [hsplit, List.dropLast_concat]
  have hl : FS.lookup fs (cfg.clientsDir ++ [name]) = some FNode.dir := by
    simpa [FS.isdir] using hdir
  have hpe : FS.pathExists fs (cfg.clientsDir ++ [name, "local"]).dropLast = true := by
    rw [hdl]
    simp [FS.pathExists, hl]
  have hnr := makedirs_no_recursion fs (cfg.clientsDir ++ [name, "local"]) (Or.inr hpe)
  unfold Config.get_or_create_write_dir get_or_create_dir
  rw [hnr]
  unfold mkdir
  by_cases hex : FS.pathExists fs (cfg.clientsDir ++ [name, "local"]) = true
  · rw [if_pos hex]
    exact ⟨fs, by simp, fun q n hq => hq⟩
  · rw [if_neg hex]
    have hid : FS.isdir fs (cfg.clientsDir ++ [name, "local"]).dropLast = true := by
      rw [hdl]
      exact hdir
    rw [if_pos hid]
    refine ⟨FS.set fs (cfg.clientsDir ++ [name, "local"]) FNode.dir, by simp, ?_⟩
    intro q n hq
    have hqne : q ≠ cfg.clientsDir ++ [name, "local"] := by
      intro he
      rw [he] at hq
      exact hex (by simp [FS.pathExists, hq])
    rw [lookup_set_ne _ _ _ _ hqne]
    exact hq

/-- C6: `mount` validates the recorded mount point before issuing the
RPC request: an existing directory is left as-is; a missing mount point
under an existing parent is created, and the RPC mount request is then
issued on a filesystem where the mount point is a directory (the trace
pairs the issued call with that filesystem); a missing parent fails with
the mount-point error and no RPC request is issued. -/
theorem spec_c6_mount_validates (cfg : Config) (env : RpcEnv) (name : String)
    (fs : FS) (info : ClientInfo) (mp : Path)
    (hinfo : cfg.get_client_info fs name = .ok info)
    (hmp : info.mount = mp)
    (hconn : env.connectOk = true) :
    (FS.isdir fs mp = false → FS.isdir fs mp.dropLast = false →
      Config.mount cfg env name fs
        = (.error (.invalidMountPoint mp.dropLast mp), fs, []))
    ∧ (FS.isdir fs mp = true →
      (Config.mount cfg env name fs).2.2
          = [(RpcCall.mount mp info.clientDir, (Config.mount cfg env name fs).2.1)]
        ∧ FS.isdir (Config.mount cfg env name fs).2.1 mp = true)
    ∧ (FS.pathExists fs mp = false → FS.isdir fs mp.dropLast = true →
      (Config.mount cfg env name fs).2.2
          = [(RpcCall.mount mp info.clientDir, (Config.mount cfg env name fs).2.1)]
        ∧ FS.isdir (Config.mount cfg env name fs).2.1 mp = true) := by
  subst hmp
  obtain ⟨hcd, hisdir⟩ := get_client_info_ok cfg fs name info hinfo
  refine ⟨?_, ?_, ?_⟩
  · intro h1 h2
    have hv : verify_mount_point fs info.mount
        = (.error (.invalidMountPoint info.mount.dropLast info.mount), fs) := by
      simp [verify_mount_point, h1, h2]
    simp [Config.mount, hinfo, hv]
  · intro h1
    have hv : verify_mount_point fs info.mount = (.ok (), fs) := by
      simp [verify_mount_point, h1]
    obtain ⟨fs2, hwd, hpres⟩ := write_dir_ok cfg fs name hisdir
    have hl : FS.lookup fs info.mount = some FNode.dir := by
      simpa [FS.isdir] using h1
    have hl2 : FS.lookup fs2 info.mount = some FNode.dir := hpres _ _ hl
    have hM : Config.mount cfg env name fs =
        (match env.reply (RpcCall.mount info.mount info.clientDir) with
          | .ok => (.ok (), fs2,
              [(RpcCall.mount info.mount info.clientDir, fs2)])
          | .edenError m => (.error (.serviceError m), fs2,
              [(RpcCall.mount info.mount info.clientDir, fs2)])
          | .transportError m => (.error (.rpcTransportError m), fs2,
              [(RpcCall.mount info.mount info.clientDir, fs2)])) := by
      simp [Config.mount, hinfo, hv, hwd, hconn]
    rw [hM]
    cases env.reply (RpcCall.mount info.mount info.clientDir) <;>
      exact ⟨rfl, by simp [FS.isdir, hl2]⟩
  · intro h1 h2
    have hnd : FS.isdir fs info.mount = false := by
      cases hval : FS.lookup fs info.mount with
      | none => simp [FS.isdir, hval]
      | some m => simp [FS.pathExists, hval] at h1
    have hv : verify_mount_point fs info.mount
        = (.ok (), FS.set fs info.mount FNode.dir) := by
      simp [verify_mount_point, hnd, h2, mkdir, h1]
    have hmpnil : info.mount ≠ [] := by
      intro he
      rw [he, pathExists_nil] at h1
      cases h1
    have hmpne : cfg.clientsDir ++ [name] ≠ info.mount := by
      intro he
      have hpe : FS.pathExists fs (cfg.clientsDir ++ [name]) = true := by
        have hlc : FS.lookup fs (cfg.clientsDir ++ [name]) = some FNode.dir := by
          simpa [FS.isdir] using hisdir
        simp [FS.pathExists, hlc]
      rw [he, h1] at hpe
      cases hpe
    have hisdir1 : FS.isdir (FS.set fs info.mount FNode.dir)
        (cfg.clientsDir ++ [name]) = true := by
      unfold FS.isdir
      rw [lookup_set_ne _ _ _ _ hmpne]
      simpa [FS.isdir] using hisdir
    obtain ⟨fs2, hwd, hpres⟩ :=
      write_dir_ok cfg (FS.set fs info.mount FNode.dir) name hisdir1
    have hl : FS.lookup (FS.set fs info.mount FNode.dir) info.mount
        = some FNode.dir := lookup_set_self _ _ _ hmpnil
    have hl2 : FS.lookup fs2 info.mount = some FNode.dir := hpres _ _ hl
    have hM : Config.mount cfg env name fs =
        (match env.reply (RpcCall.mount info.mount info.clientDir) with
          | .ok => (.ok (), fs2,
              [(RpcCall.mount info.mount info.clientDir, fs2)])
          | .edenError m => (.error (.serviceError m), fs2,
              [(RpcCall.mount info.mount info.clientDir, fs2)])
          | .transportError m => (.error (.rpcTransportError m), fs2,
              [(RpcCall.mount info.mount info.clientDir, fs2)])) := by
      simp [Config.mount, hinfo, hv, hwd, hconn]
    rw [hM]
    cases env.reply (RpcCall.mount info.mount info.clientDir) <;>
      exact ⟨rfl, by simp [FS.isdir, hl2]⟩

/-- C6 witness: on a registry with three clients, mounting `"b"` (parent
of mount point missing) fails with the mount-point error and issues no
RPC call; mounting `"c"` (mount point exists) and `"d"` (mount point
absent, parent exists) issue the RPC mount request on a filesystem where
the mount point is a directory. -/
theorem spec_c6_witness :
    (Config.get_client_info cfg0 fsM "b"
        = .ok { bindMounts := [], mount := ["mnt3", "sub"], snapshot := "abc",
                clientDir := ["eden", "clients", "b"] }
      ∧ envOk.connectOk = true
      ∧ FS.isdir fsM ["mnt3", "sub"] = false
      ∧ FS.isdir fsM (List.dropLast ["mnt3", "sub"]) = false
      ∧ Config.mount cfg0 envOk "b" fsM
          = (.error (.invalidMountPoint (List.dropLast ["mnt3", "sub"])
              ["mnt3", "sub"]), fsM, []))
    ∧ (Config.get_client_info cfg0 fsM "c"
        = .ok { bindMounts := [], mount := ["mnt"], snapshot := "abc",
                clientDir := ["eden", "clients", "c"] }
      ∧ FS.isdir fsM ["mnt"] = true
      ∧ (Config.mount cfg0 envOk "c" fsM).2.2
          = [(RpcCall.mount ["mnt"] ["eden", "clients", "c"],
              (Config.mount cfg0 envOk "c" fsM).2.1)]
      ∧ FS.isdir (Config.mount cfg0 envOk "c" fsM).2.1 ["mnt"] = true)
    ∧ (Config.get_client_info cfg0 fsM "d"
        = .ok { bindMounts := [], mount := ["mnt2"], snapshot := "abc",
                clientDir := ["eden", "clients", "d"] }
      ∧ FS.pathExists fsM ["mnt2"] = false
      ∧ FS.isdir fsM (List.dropLast ["mnt2"]) = true
      ∧ (Config.mount cfg0 envOk "d" fsM).2.2
          = [(RpcCall.mount ["mnt2"] ["eden", "clients", "d"],
              (Config.mount cfg0 envOk "d" fsM).2.1)]
      ∧ FS.isdir (Config.mount cfg0 envOk "d" fsM).2.1 ["mnt2"] = true) := by
  refine ⟨⟨by decide, by decide, by decide, by decide, ?_⟩,
    ⟨by decide, by decide, ?_, ?_⟩, ⟨by decide, by decide, by decide, ?_, ?_⟩⟩
  · exact (spec_c6_mount_validates cfg0 envOk "b" fsM
      { bindMounts := [], mount := ["mnt3", "sub"], snapshot := "abc",
        clientDir := ["eden", "clients", "b"] } ["mnt3", "sub"]
      (by decide) (by decide) (by decide)).1 (by decide) (by decide)
  · exact ((spec_c6_mount_validates cfg0 envOk "c" fsM
      { bindMounts := [], mount := ["mnt"], snapshot := "abc",
        clientDir := ["eden", "clients", "c"] } ["mnt"]
      (by decide) (by decide) (by decide)).2.1 (by decide)).1
  · exact ((spec_c6_mount_validates cfg0 envOk "c" fsM
      { bindMounts := [], mount := ["mnt"], snapshot := "abc",
        clientDir := ["eden", "clients", "c"] } ["mnt"]
      (by decide) (by decide) (by decide)).2.1 (by decide)).2
  · exact ((spec_c6_mount_validates cfg0 envOk "d" fsM
      { bindMounts := [], mount := ["mnt2"], snapshot := "abc",
        clientDir := ["eden", "clients", "d"] } ["mnt2"]
      (by decide) (by decide) (by decide)).2.2 (by decide) (by decide)).1
  · exact ((spec_c6_mount_validates cfg0 envOk "d" fsM
      { bindMounts := [], mount := ["mnt2"], snapshot := "abc",
        clientDir := ["eden", "clients", "d"] } ["mnt2"]
      (by decide) (by decide) (by decide)).2.2 (by decide) (by decide)).2

/-! ## Claim C3 -/

theorem envGet_set_self (e : Env) (k v : String) :
    envGet (envSet e k v) k = some v := by
  simp [envGet, envSet]

theorem envGet_set_ne (e : Env) (k v k' : String) (h : k' ≠ k) :
    envGet (envSet e k v) k' = envGet e k' := by
  unfold envGet envSet
  rw [List.find?_cons_of_neg]
  simp
  exact fun he => h he.symm

/-- Keys that are neither on the allow-list nor test-harness-prefixed
pass through the copying loop untouched. -/
theorem envGet_foldl_untracked (l : Env) :
    ∀ acc k, preserve.contains k = false → strStartsWith k "TESTPILOT_" = false →
      envGet (l.foldl envStep acc) k = envGet acc k := by
  induction l with
  | nil => intro acc k _ _; rfl
  | cons a l ih =>
    intro acc k h1 h2
    rw [List.foldl_cons, ih _ k h1 h2]
    unfold envStep
    split
    · rename_i hts
      refine envGet_set_ne _ _ _ _ ?_
      intro he
      rw [he] at h2
      rw [h2] at hts
      cases hts
    · split
      · rename_i hpv
        refine envGet_set_ne _ _ _ _ ?_
        intro he
        rw [he] at h1
        rw [h1] at hpv
        cases hpv
      · rfl

/-- If no pair in the remaining input carries key `k`, the loop leaves
`k`'s binding unchanged. -/
theorem envGet_foldl_no_key (l : Env) :
    ∀ acc k, (∀ p, p ∈ l → p.1 ≠ k) →
      envGet (l.foldl envStep acc) k = envGet acc k := by
  induction l with
  | nil => intro acc k _; rfl
  | cons a l ih =>
    intro acc k hk
    rw [List.foldl_cons, ih _ k (fun p hp => hk p (List.mem_cons_of_mem a hp))]
    have hak : a.1 ≠ k := hk a (List.mem_cons_self a l)
    unfold envStep
    split
    · exact envGet_set_ne _ _ _ _ (fun he => hak he.symm)
    · split
      · exact envGet_set_ne _ _ _ _ (fun he => hak he.symm)
      · rfl

theorem envStep_tracked (acc : Env) (n v : String)
    (h : preserve.contains n = true ∨ strStartsWith n "TESTPILOT_" = true) :
    envStep acc (n, v) = envSet acc n v := by
  unfold envStep
  dsimp only
  by_cases hs : strStartsWith n "TESTPILOT_" = true
  · rw [if_pos hs]
  · rw [if_neg hs]
    rcases h with h | h
    · rw [if_pos h]
    · exact absurd h hs

/-- A tracked pair of the input (ambient keys distinct) ends up bound to
its ambient value. -/
theorem envGet_foldl_tracked (l : Env) :
    ∀ acc n v, (n, v) ∈ l → (l.map Prod.fst).Nodup →
      (preserve.contains n = true ∨ strStartsWith n "TESTPILOT_" = true) →
      envGet (l.foldl envStep acc) n = some v := by
  induction l with
  | nil => intro acc n v h; cases h
  | cons a l ih =>
    intro acc n v hmem hnd htrk
    rw [List.foldl_cons]
    rcases List.mem_cons.mp hmem with heq | hmem'
    · subst heq
      have hnotin : ∀ p, p ∈ l → p.1 ≠ (n, v).1 := by
        intro p hp hpn
        have hin : (n, v).1 ∈ l.map Prod.fst := by
          rw [← hpn]
          exact List.mem_map_of_mem Prod.fst hp
        exact (List.nodup_cons.mp hnd).1 hin
      rw [envGet_foldl_no_key l _ _ hnotin, envStep_tracked acc n v htrk]
      exact envGet_set_self acc n v
    · exact ih (envStep acc a) n v hmem' (List.nodup_cons.mp hnd).2 htrk

/-- C3: for every ambient environment (a mapping, so with distinct
names), the daemon environment has `PATH` hard-reset to the fixed list
regardless of the ambient `PATH`; every ambient variable on the fixed
allow-list is copied with its ambient value; every ambient variable with
the test-harness name prefix is copied verbatim; and no other ambient
variable appears. -/
theorem spec_c3_environment (environ : Env)
    (hnd : (environ.map Prod.fst).Nodup) :
    envGet (build_eden_environment environ) "PATH"
        = some "/usr/local/bin:/bin:/usr/bin"
    ∧ (∀ n v, (n, v) ∈ environ → preserve.contains n = true →
        envGet (build_eden_environment environ) n = some v)
    ∧ (∀ n v, (n, v) ∈ environ → strStartsWith n "TESTPILOT_" = true →
        envGet (build_eden_environment environ) n = some v)
    ∧ (∀ n, n ≠ "PATH" → preserve.contains n = false →
        strStartsWith n "TESTPILOT_" = false →
        envGet (build_eden_environment environ) n = none) := by
  refine ⟨?_, ?_, ?_, ?_⟩
  · unfold build_eden_environment
    rw [envGet_foldl_untracked environ _ "PATH" (by decide) (by decide)]
    decide
  · intro n v hmem hpv
    exact envGet_foldl_tracked environ _ n v hmem hnd (Or.inl hpv)
  · intro n v hmem hts
    exact envGet_foldl_tracked environ _ n v hmem hnd (Or.inr hts)
  · intro n hP h1 h2
    unfold build_eden_environment
    rw [envGet_foldl_untracked environ _ n h1 h2]
    unfold envGet
    rw [List.find?_cons_of_neg]
    · rfl
    · simp
      exact fun he => hP he.symm

/-- C3 witness: the specification's own example — ambient
`HOME=/h`, `RANDOM_VAR=x`, `TESTPILOT_FOO=y` — yields an environment
with the fixed `PATH`, with `HOME` and `TESTPILOT_FOO`, and without
`RANDOM_VAR`. -/
theorem spec_c3_witness :
    ((([("HOME", "/h"), ("RANDOM_VAR", "x"), ("TESTPILOT_FOO", "y")] : Env).map
        Prod.fst).Nodup
      ∧ ("HOME", "/h") ∈ ([("HOME", "/h"), ("RANDOM_VAR", "x"),
          ("TESTPILOT_FOO", "y")] : Env)
      ∧ preserve.contains "HOME" = true
      ∧ ("TESTPILOT_FOO", "y") ∈ ([("HOME", "/h"), ("RANDOM_VAR", "x"),
          ("TESTPILOT_FOO", "y")] : Env)
      ∧ strStartsWith "TESTPILOT_FOO" "TESTPILOT_" = true
      ∧ "RANDOM_VAR" ≠ "PATH"
      ∧ preserve.contains "RANDOM_VAR" = false
      ∧ strStartsWith "RANDOM_VAR" "TESTPILOT_" = false)
    ∧ envGet (build_eden_environment
        [("HOME", "/h"), ("RANDOM_VAR", "x"), ("TESTPILOT_FOO", "y")]) "PATH"
        = some "/usr/local/bin:/bin:/usr/bin"
    ∧ envGet (build_eden_environment
        [("HOME", "/h"), ("RANDOM_VAR", "x"), ("TESTPILOT_FOO", "y")]) "HOME"
        = some "/h"
    ∧ envGet (build_eden_environment
        [("HOME", "/h"), ("RANDOM_VAR", "x"), ("TESTPILOT_FOO", "y")]) "TESTPILOT_FOO"
        = some "y"
    ∧ envGet (build_eden_environment
        [("HOME", "/h"), ("RANDOM_VAR", "x"), ("TESTPILOT_FOO", "y")]) "RANDOM_VAR"
        = none :=
  ⟨⟨by decide, by decide, by decide, by decide, by decide, by decide, by decide,
      by decide⟩,
    (spec_c3_environment _ (by decide)).1,
    (spec_c3_environment _ (by decide)).2.1 "HOME" "/h" (by decide) (by decide),
    (spec_c3_environment _ (by decide)).2.2.1 "TESTPILOT_FOO" "y" (by decide)
      (by decide),
    (spec_c3_environment _ (by decide)).2.2.2 "RANDOM_VAR" (by decide) (by decide)
      (by decide)⟩

/-! ## Claim C4 -/

/-- The premature-exit error built at iteration observing exit `code`. -/
def prematureErr (code : Int) : EdenErr :=
  .edenStartError ("edenfs exited before becoming healthy: " ++ exitMsg code)

theorem poll_premature (w : Nat → DaemonObs) (code : Int)
    (hnh : ∀ j, (w j).health.is_healthy = false) :
    ∀ i fuel st, i < fuel → (w (st + i)).procExit = some code →
      (∀ j, j < i → (w (st + j)).procExit = none) →
      poll_until (fun k => wait_check_health (w k)) timeoutErr st fuel
        = .error (prematureErr code) := by
  intro i
  induction i with
  | zero =>
    intro fuel st hfuel hexit _
    cases fuel with
    | zero => omega
    | succ f =>
      rw [Nat.add_zero] at hexit
      unfold poll_until wait_check_health
      rw [hnh st, hexit]
      rfl
  | succ i ih =>
    intro fuel st hfuel hexit hfirst
    cases fuel with
    | zero => omega
    | succ f =>
      have h0 : (w (st + 0)).procExit = none := hfirst 0 (Nat.succ_pos i)
      rw [Nat.add_zero] at h0
      unfold poll_until wait_check_health
      rw [hnh st, h0]
      dsimp only
      have hsh : st + 1 + i = st + (i + 1) := by omega
      refine ih f (st + 1) (by omega) (by rw [hsh]; exact hexit) ?_
      intro j hj
      have : st + 1 + j = st + (j + 1) := by omega
      rw [this]
      exact hfirst (j + 1) (by omega)

/-- C4: during the background-spawn readiness poll, if no health probe
reports healthy and the spawned process is first observed exited at
iteration `i` within the timeout budget, the wait fails at that
iteration with the premature-exit error carrying the exit code or
terminating signal — not with the start-timeout error. -/
theorem spec_c4_premature_exit (w : Nat → DaemonObs) (attempts i : Nat)
    (code : Int)
    (hnh : ∀ j, (w j).health.is_healthy = false)
    (hi : i < attempts)
    (hexit : (w i).procExit = some code)
    (hfirst : ∀ j, j < i → (w j).procExit = none) :
    wait_for_daemon_healthy w attempts = .error (prematureErr code)
    ∧ wait_for_daemon_healthy w attempts ≠ .error timeoutErr := by
  have hmain : wait_for_daemon_healthy w attempts = .error (prematureErr code) := by
    unfold wait_for_daemon_healthy
    exact poll_premature w code hnh i attempts 0 hi (by simpa using hexit)
      (fun j hj => by simpa using hfirst j hj)
  refine ⟨hmain, ?_⟩
  rw [hmain]
  intro hcontra
  have hmsg : "edenfs exited before becoming healthy: " ++ exitMsg code
      = "timed out waiting for edenfs to become healthy" := by
    have h1 : prematureErr code = timeoutErr := by
      simpa using hcontra
    simpa [prematureErr, timeoutErr] using h1
  have hlen := congrArg String.length hmsg
  rw [String.length_append] at hlen
  have hexlen : 12 ≤ (exitMsg code).length := by
    unfold exitMsg
    split
    · rw [String.length_append]
      have : ("terminated with signal ").length = 23 := by decide
      omega
    · rw [String.length_append]
      have : ("exit status ").length = 12 := by
        decide
      omega
  have hl1 : ("edenfs exited before becoming healthy: ").length = 39 := by decide
  have hl2 : ("timed out waiting for edenfs to become healthy").length = 46 := by
    decide
  omega

/-- C4 witness: a daemon that is never healthy and whose process has
exited with code 1 at the very first poll iteration fails with the
premature-exit error, before the 3-iteration budget elapses. -/
theorem spec_c4_witness :
    ((∀ j, (obsExit1 j).health.is_healthy = false)
      ∧ 0 < 3
      ∧ (obsExit1 0).procExit = some 1)
    ∧ wait_for_daemon_healthy obsExit1 3 = .error (prematureErr 1)
    ∧ wait_for_daemon_healthy obsExit1 3 ≠ .error timeoutErr :=
  ⟨⟨fun _ => rfl, by decide, rfl⟩,
    (spec_c4_premature_exit obsExit1 3 0 1 (fun _ => rfl) (by decide) rfl
      (fun j hj => absurd hj (Nat.not_lt_zero j))).1,
    (spec_c4_premature_exit obsExit1 3 0 1 (fun _ => rfl) (by decide) rfl
      (fun j hj => absurd hj (Nat.not_lt_zero j))).2⟩

/-! ## Claim C5 -/

/-- C5: when the health probe made on entry reports the daemon healthy,
`spawn` fails with the already-running error carrying the probed pid,
leaves the filesystem untouched, and performs no process action — no
`execve`, no `Popen`. -/
theorem spec_c5_already_running (cfg : Config) (w : SpawnWorld)
    (daemon_binary : String) (extra_args : List String) (gdb foreground : Bool)
    (fs : FS) (h : w.initialHealth.is_healthy = true) :
    cfg.spawn w daemon_binary extra_args gdb foreground fs
      = (.error (.edenStartError
          ("edenfs is already running (pid " ++ pidStr w.initialHealth.pid ++ ")")),
         fs, []) := by
  unfold Config.spawn
  rw [h]
  simp

/-- C5 witness: a concrete healthy probe (pid 42) makes `spawn` fail
with the already-running error and no action. -/
theorem spec_c5_witness :
    wAlive.initialHealth.is_healthy = true
    ∧ Config.spawn cfg0 wAlive "/bin/edenfs" [] false false fs0
      = (.error (.edenStartError
          ("edenfs is already running (pid " ++ pidStr wAlive.initialHealth.pid
            ++ ")")),
         fs0, []) :=
  ⟨by decide,
    spec_c5_already_running cfg0 wAlive "/bin/edenfs" [] false false fs0 (by decide)⟩

end Eden


